import Mathlib

/-!
Shallow embedding of `src/platform.rs` of the `legaming_rs` repository.

The source dispatches on a `(RawWindowHandle, RawDisplayHandle)` pair (winit
`raw-window-handle` 0.6 types) to one of four Vulkan surface backends
(Win32, Wayland, Xcb, Xlib), and in parallel computes the instance extensions
required for that backend.  Machine pointers and handles are modelled as
`Nat`/`Int`; the native Vulkan entry points (`vkCreate*SurfaceKHR`) and the
Win32 `GetModuleHandleA` lookup are modelled as oracle fields of a
`NativeEnv` record, since their behaviour is external to the repository.
-/

namespace Platform

/-- A `vk::SurfaceKHR` opaque handle. -/
abbrev Surface := Nat

/-- The four backend kinds the dispatch in `create_surface` recognises. -/
inductive BackendTag
  | win32
  | wayland
  | xcb
  | xlib
  deriving DecidableEq, Repr

/-- winit `Win32WindowHandle`: `hwnd : NonZeroIsize`, `hinstance : Option<NonZeroIsize>`. -/
structure Win32WindowHandle where
  hwnd : Int
  hinstance : Option Int
  deriving DecidableEq, Repr

/-- winit `WaylandWindowHandle`: `surface : NonNull<c_void>` (a raw pointer). -/
structure WaylandWindowHandle where
  surface : Nat
  deriving DecidableEq, Repr

/-- winit `XcbWindowHandle`: `window : NonZeroU32` plus a `visual_id : u32`
field the source never reads. -/
structure XcbWindowHandle where
  window : Nat
  visual_id : Nat
  deriving DecidableEq, Repr

/-- winit `XlibWindowHandle`: `window : c_ulong` plus a `visual_id : c_ulong`
field the source never reads. -/
structure XlibWindowHandle where
  window : Nat
  visual_id : Nat
  deriving DecidableEq, Repr

/-- winit `WindowsDisplayHandle`: carries no fields. -/
structure WindowsDisplayHandle where
  deriving DecidableEq, Repr

/-- winit `WaylandDisplayHandle`: `display : NonNull<c_void>`. -/
structure WaylandDisplayHandle where
  display : Nat
  deriving DecidableEq, Repr

/-- winit `XcbDisplayHandle`: `connection : Option<NonNull<c_void>>` and a
`screen : c_int` field the source never reads. -/
structure XcbDisplayHandle where
  connection : Option Nat
  screen : Int
  deriving DecidableEq, Repr

/-- winit `XlibDisplayHandle`: `display : Option<NonNull<c_void>>` and a
`screen : c_int` field; the source binds this handle as `_display_handle`
and reads neither field. -/
structure XlibDisplayHandle where
  display : Option Nat
  screen : Int
  deriving DecidableEq, Repr

/-- winit `RawWindowHandle`.  The variants the source never matches
(AppKit, UiKit, Web, WebCanvas, WebOffscreenCanvas, Drm, Gbm, AndroidNdk,
Haiku, Orbital) are collapsed into `other`, distinguished by a variant
number so that distinct real variants stay distinct. -/
inductive RawWindowHandle
  | win32 (h : Win32WindowHandle)
  | wayland (h : WaylandWindowHandle)
  | xcb (h : XcbWindowHandle)
  | xlib (h : XlibWindowHandle)
  | other (variant : Nat)
  deriving DecidableEq, Repr

/-- winit `RawDisplayHandle`.  Variants the source never matches (AppKit,
UiKit, Web, Drm, Gbm, Android, Haiku, Ohos) are collapsed into `other`. -/
inductive RawDisplayHandle
  | windows (h : WindowsDisplayHandle)
  | wayland (h : WaylandDisplayHandle)
  | xcb (h : XcbDisplayHandle)
  | xlib (h : XlibDisplayHandle)
  | other (variant : Nat)
  deriving DecidableEq, Repr

/-- The recoverable error values produced through `anyhow` by the source:
the repository's own `CreateSurfaceError::Unsupported`, and an `ash`
`vk::Result` error code propagated by `Err(err.into())`. -/
inductive CreateError
  | unsupported
  | vkError (code : Int)
  deriving DecidableEq, Repr

/-- Result of running a routine of the source: a value, a recoverable
`anyhow` error, or a fatal non-returning condition (the Rust
`unimplemented!` panic in the non-windows `get_hinstance`). -/
inductive Outcome (α : Type)
  | ok (value : α)
  | err (e : CreateError)
  | fatal
  deriving DecidableEq, Repr

/-- ash `vk::Win32SurfaceCreateInfoKHR` (the fields the builder sets). -/
structure Win32SurfaceCreateInfoKHR where
  hinstance : Int
  hwnd : Int
  deriving DecidableEq, Repr

/-- ash `vk::WaylandSurfaceCreateInfoKHR` (the fields the builder sets). -/
structure WaylandSurfaceCreateInfoKHR where
  surface : Nat
  display : Nat
  deriving DecidableEq, Repr

/-- ash `vk::XcbSurfaceCreateInfoKHR`; a null connection pointer is
represented as `0`. -/
structure XcbSurfaceCreateInfoKHR where
  connection : Nat
  window : Nat
  deriving DecidableEq, Repr

/-- ash `vk::XlibSurfaceCreateInfoKHR`.  It has a `dpy` display-pointer
field whose builder default is null (`0`); `create_xlib_surface` in the
source never sets it. -/
structure XlibSurfaceCreateInfoKHR where
  dpy : Nat := 0
  window : Nat
  deriving DecidableEq, Repr

/-- The build target and the external native calls the source invokes:
`isWindows` reflects the `#[cfg(windows)]` choice of `get_hinstance` body,
`moduleHandle` is the value `GetModuleHandleA(null)` would return, and the
four oracles are the `vkCreate*SurfaceKHR` entry points reached through
`ash::extensions::khr`, each returning either a surface or a `vk::Result`
error code. -/
structure NativeEnv where
  isWindows : Bool
  moduleHandle : Int
  win32Create : Win32SurfaceCreateInfoKHR → Except Int Surface
  waylandCreate : WaylandSurfaceCreateInfoKHR → Except Int Surface
  xcbCreate : XcbSurfaceCreateInfoKHR → Except Int Surface
  xlibCreate : XlibSurfaceCreateInfoKHR → Except Int Surface

/-- Converts the result of a native `vkCreate*SurfaceKHR` oracle to the
routine result shape shared by all four backend routines of the source:
`Ok(value) => Ok(value), Err(err) => Err(err.into())`. -/
def nativeResult (r : Except Int Surface) : Outcome Surface :=
  match r with
  | Except.ok value => Outcome.ok value
  | Except.error err => Outcome.err (CreateError.vkError err)

/-- Model of `get_hinstance` of the source: under `#[cfg(windows)]` it
returns `GetModuleHandleA(null) as HINSTANCE`; under `#[cfg(not(windows))]`
its body is `unimplemented!`, a fatal panic, modelled as `Outcome.fatal`. -/
def get_hinstance (env : NativeEnv) : Outcome Int :=
  if env.isWindows then Outcome.ok env.moduleHandle else Outcome.fatal

/-- Model of the line `hinstance.map_or_else(|| get_hinstance(), |v| v.get()
as HINSTANCE)` of `create_win32_surface`, instrumented: the second component
counts the invocations of the fallback closure `get_hinstance`, which
`map_or_else` runs exactly when the option is `None`. -/
def resolve_hinstance (env : NativeEnv) (hinstance : Option Int) :
    Outcome Int × Nat :=
  match hinstance with
  | none => (get_hinstance env, 1)
  | some v => (Outcome.ok v, 0)

/-- Model of `create_win32_surface` of the source, carrying the
`get_hinstance` invocation count through.  On a resolved instance handle it
builds `Win32SurfaceCreateInfoKHR` from it and `hwnd` and invokes the
native call; a fatal `get_hinstance` outcome aborts before any native
call. -/
def create_win32_surface (env : NativeEnv) (hinstance : Option Int)
    (hwnd : Int) : Outcome Surface × Nat :=
  match resolve_hinstance env hinstance with
  | (Outcome.ok hinstance_value, n) =>
    let create_info : Win32SurfaceCreateInfoKHR :=
      { hinstance := hinstance_value, hwnd := hwnd }
    (match env.win32Create create_info with
     | Except.ok value => Outcome.ok value
     | Except.error err => Outcome.err (CreateError.vkError err), n)
  | (Outcome.err e, n) => (Outcome.err e, n)
  | (Outcome.fatal, n) => (Outcome.fatal, n)

/-- Model of `create_wayland_surface` of the source: both raw pointers are
placed in the create info unchanged. -/
def create_wayland_surface (env : NativeEnv) (surface display : Nat) :
    Outcome Surface :=
  let create_info : WaylandSurfaceCreateInfoKHR :=
    { surface := surface, display := display }
  match env.waylandCreate create_info with
  | Except.ok value => Outcome.ok value
  | Except.error err => Outcome.err (CreateError.vkError err)

/-- Model of `create_xcb_surface` of the source: the window id is passed
unchanged and `connection.map_or(std::ptr::null_mut(), |v| v.as_ptr())`
substitutes the null pointer (`0`) exactly when the connection is absent. -/
def create_xcb_surface (env : NativeEnv) (window : Nat)
    (connection : Option Nat) : Outcome Surface :=
  let create_info : XcbSurfaceCreateInfoKHR :=
    { connection := match connection with
                    | none => 0
                    | some v => v,
      window := window }
  match env.xcbCreate create_info with
  | Except.ok value => Outcome.ok value
  | Except.error err => Outcome.err (CreateError.vkError err)

/-- Model of `create_xlib_surface` of the source: the builder sets only
`window`, so `dpy` keeps its null default. -/
def create_xlib_surface (env : NativeEnv) (window : Nat) :
    Outcome Surface :=
  let create_info : XlibSurfaceCreateInfoKHR := { window := window }
  match env.xlibCreate create_info with
  | Except.ok value => Outcome.ok value
  | Except.error err => Outcome.err (CreateError.vkError err)

/-- Model of `create_surface` of the source: the match over the
`(window_handle, display_handle)` pair, dispatching to the backend routines
and falling through to `CreateSurfaceError::Unsupported`.  The second
component counts `get_hinstance` fallback invocations (only the Win32
branch can invoke it). -/
def create_surface (env : NativeEnv) (window_handle : RawWindowHandle)
    (display_handle : RawDisplayHandle) : Outcome Surface × Nat :=
  match window_handle, display_handle with
  | RawWindowHandle.win32 wh, RawDisplayHandle.windows _ =>
    create_win32_surface env wh.hinstance wh.hwnd
  | RawWindowHandle.wayland wh, RawDisplayHandle.wayland dh =>
    (create_wayland_surface env wh.surface dh.display, 0)
  | RawWindowHandle.xcb wh, RawDisplayHandle.xcb dh =>
    (create_xcb_surface env wh.window dh.connection, 0)
  | RawWindowHandle.xlib wh, RawDisplayHandle.xlib _ =>
    (create_xlib_surface env wh.window, 0)
  | _, _ => (Outcome.err CreateError.unsupported, 0)

/-- Model of `get_required_instance_extensions` of the source.  The string
literals are the values of `khr::Surface::name()`,
`khr::Win32Surface::name()`, `khr::WaylandSurface::name()`,
`khr::XcbSurface::name()` and `khr::XlibSurface::name()` in ash. -/
def get_required_instance_extensions (window_handle : RawWindowHandle)
    (display_handle : RawDisplayHandle) :
    Except CreateError (List String) :=
  match window_handle, display_handle with
  | RawWindowHandle.win32 _, RawDisplayHandle.windows _ =>
    Except.ok ["VK_KHR_surface", "VK_KHR_win32_surface"]
  | RawWindowHandle.wayland _, RawDisplayHandle.wayland _ =>
    Except.ok ["VK_KHR_surface", "VK_KHR_wayland_surface"]
  | RawWindowHandle.xcb _, RawDisplayHandle.xcb _ =>
    Except.ok ["VK_KHR_surface", "VK_KHR_xcb_surface"]
  | RawWindowHandle.xlib _, RawDisplayHandle.xlib _ =>
    Except.ok ["VK_KHR_surface", "VK_KHR_xlib_surface"]
  | _, _ => Except.error CreateError.unsupported

/-- The Handle Classifier implicit in the dispatch of `create_surface`:
which backend branch, if any, the pair matches.  The patterns are exactly
those of the match in `create_surface`. -/
def classify (window_handle : RawWindowHandle)
    (display_handle : RawDisplayHandle) : Option BackendTag :=
  match window_handle, display_handle with
  | RawWindowHandle.win32 _, RawDisplayHandle.windows _ => some BackendTag.win32
  | RawWindowHandle.wayland _, RawDisplayHandle.wayland _ => some BackendTag.wayland
  | RawWindowHandle.xcb _, RawDisplayHandle.xcb _ => some BackendTag.xcb
  | RawWindowHandle.xlib _, RawDisplayHandle.xlib _ => some BackendTag.xlib
  | _, _ => none

/-- The backend-specific capability name advertised for each backend. -/
def backendExtensionName : BackendTag → String
  | BackendTag.win32 => "VK_KHR_win32_surface"
  | BackendTag.wayland => "VK_KHR_wayland_surface"
  | BackendTag.xcb => "VK_KHR_xcb_surface"
  | BackendTag.xlib => "VK_KHR_xlib_surface"

/-- The backend family a window handle variant belongs to, if any. -/
def windowFamily : RawWindowHandle → Option BackendTag
  | RawWindowHandle.win32 _ => some BackendTag.win32
  | RawWindowHandle.wayland _ => some BackendTag.wayland
  | RawWindowHandle.xcb _ => some BackendTag.xcb
  | RawWindowHandle.xlib _ => some BackendTag.xlib
  | RawWindowHandle.other _ => none

/-- The backend family a display handle variant belongs to, if any. -/
def displayFamily : RawDisplayHandle → Option BackendTag
  | RawDisplayHandle.windows _ => some BackendTag.win32
  | RawDisplayHandle.wayland _ => some BackendTag.wayland
  | RawDisplayHandle.xcb _ => some BackendTag.xcb
  | RawDisplayHandle.xlib _ => some BackendTag.xlib
  | RawDisplayHandle.other _ => none

/-- The variant tag of a window handle, payload stripped (the `other`
variant number is kept, since it stands for distinct real variants). -/
inductive WindowTag
  | win32
  | wayland
  | xcb
  | xlib
  | other (variant : Nat)
  deriving DecidableEq, Repr

/-- The variant tag of a display handle, payload stripped. -/
inductive DisplayTag
  | windows
  | wayland
  | xcb
  | xlib
  | other (variant : Nat)
  deriving DecidableEq, Repr

def RawWindowHandle.tag : RawWindowHandle → WindowTag
  | RawWindowHandle.win32 _ => WindowTag.win32
  | RawWindowHandle.wayland _ => WindowTag.wayland
  | RawWindowHandle.xcb _ => WindowTag.xcb
  | RawWindowHandle.xlib _ => WindowTag.xlib
  | RawWindowHandle.other n => WindowTag.other n

def RawDisplayHandle.tag : RawDisplayHandle → DisplayTag
  | RawDisplayHandle.windows _ => DisplayTag.windows
  | RawDisplayHandle.wayland _ => DisplayTag.wayland
  | RawDisplayHandle.xcb _ => DisplayTag.xcb
  | RawDisplayHandle.xlib _ => DisplayTag.xlib
  | RawDisplayHandle.other n => DisplayTag.other n

/-- `get_required_instance_extensions` as a function of the two variant
tags alone. -/
def extensionsOfTags (wt : WindowTag) (dt : DisplayTag) :
    Except CreateError (List String) :=
  match wt, dt with
  | WindowTag.win32, DisplayTag.windows =>
    Except.ok ["VK_KHR_surface", "VK_KHR_win32_surface"]
  | WindowTag.wayland, DisplayTag.wayland =>
    Except.ok ["VK_KHR_surface", "VK_KHR_wayland_surface"]
  | WindowTag.xcb, DisplayTag.xcb =>
    Except.ok ["VK_KHR_surface", "VK_KHR_xcb_surface"]
  | WindowTag.xlib, DisplayTag.xlib =>
    Except.ok ["VK_KHR_surface", "VK_KHR_xlib_surface"]
  | _, _ => Except.error CreateError.unsupported

/-- A concrete environment for a Windows build target, used to instantiate
universally quantified statements at evaluable inputs. -/
def winEnv : NativeEnv where
  isWindows := true
  moduleHandle := 7
  win32Create := fun _ => Except.ok 42
  waylandCreate := fun _ => Except.ok 43
  xcbCreate := fun _ => Except.ok 44
  xlibCreate := fun _ => Except.ok 45

/-- A concrete environment for a non-Windows build target. -/
def unixEnv : NativeEnv where
  isWindows := false
  moduleHandle := 0
  win32Create := fun _ => Except.error 1
  waylandCreate := fun _ => Except.ok 43
  xcbCreate := fun _ => Except.ok 44
  xlibCreate := fun _ => Except.ok 45

lemma create_win32_surface_some (env : NativeEnv) (v hwnd : Int) :
    create_win32_surface env (some v) hwnd =
      (nativeResult (env.win32Create { hinstance := v, hwnd := hwnd }), 0) := by
  cases h : env.win32Create { hinstance := v, hwnd := hwnd } <;>
    simp [create_win32_surface, resolve_hinstance, nativeResult, h]

lemma create_win32_surface_none_win (env : NativeEnv) (hwnd : Int)
    (h : env.isWindows = true) :
    create_win32_surface env none hwnd =
      (nativeResult (env.win32Create { hinstance := env.moduleHandle, hwnd := hwnd }), 1) := by
  cases hc : env.win32Create { hinstance := env.moduleHandle, hwnd := hwnd } <;>
    simp [create_win32_surface, resolve_hinstance, get_hinstance, nativeResult, h, hc]

lemma create_win32_surface_none_unix (env : NativeEnv) (hwnd : Int)
    (h : env.isWindows = false) :
    create_win32_surface env none hwnd = (Outcome.fatal, 1) := by
  simp [create_win32_surface, resolve_hinstance, get_hinstance, h]

lemma create_wayland_surface_eq (env : NativeEnv) (surface display : Nat) :
    create_wayland_surface env surface display =
      nativeResult (env.waylandCreate { surface := surface, display := display }) := by
  cases h : env.waylandCreate { surface := surface, display := display } <;>
    simp [create_wayland_surface, nativeResult, h]

lemma create_xcb_surface_some (env : NativeEnv) (window conn : Nat) :
    create_xcb_surface env window (some conn) =
      nativeResult (env.xcbCreate { connection := conn, window := window }) := by
  cases h : env.xcbCreate { connection := conn, window := window } <;>
    simp [create_xcb_surface, nativeResult, h]

lemma create_xcb_surface_none (env : NativeEnv) (window : Nat) :
    create_xcb_surface env window none =
      nativeResult (env.xcbCreate { connection := 0, window := window }) := by
  cases h : env.xcbCreate { connection := 0, window := window } <;>
    simp [create_xcb_surface, nativeResult, h]

lemma create_xlib_surface_eq (env : NativeEnv) (window : Nat) :
    create_xlib_surface env window =
      nativeResult (env.xlibCreate { dpy := 0, window := window }) := by
  cases h : env.xlibCreate { dpy := 0, window := window } <;>
    simp [create_xlib_surface, nativeResult, h]

lemma nativeResult_ne_unsupported (r : Except Int Surface) :
    nativeResult r ≠ Outcome.err CreateError.unsupported := by
  cases r <;> simp [nativeResult]

lemma create_win32_surface_fst_ne_unsupported (env : NativeEnv)
    (hinstance : Option Int) (hwnd : Int) :
    (create_win32_surface env hinstance hwnd).1 ≠
      Outcome.err CreateError.unsupported := by
  cases hinstance with
  | none =>
    cases hw : env.isWindows with
    | true =>
      rw [create_win32_surface_none_win env hwnd hw]
      exact nativeResult_ne_unsupported _
    | false =>
      rw [create_win32_surface_none_unix env hwnd hw]
      simp
  | some v =>
    rw [create_win32_surface_some env v hwnd]
    exact nativeResult_ne_unsupported _

lemma create_xcb_surface_ne_unsupported (env : NativeEnv) (window : Nat)
    (connection : Option Nat) :
    create_xcb_surface env window connection ≠
      Outcome.err CreateError.unsupported := by
  cases connection with
  | none =>
    rw [create_xcb_surface_none]
    exact nativeResult_ne_unsupported _
  | some v =>
    rw [create_xcb_surface_some]
    exact nativeResult_ne_unsupported _

lemma get_required_eq_tags (wh : RawWindowHandle) (dh : RawDisplayHandle) :
    get_required_instance_extensions wh dh =
      extensionsOfTags wh.tag dh.tag := by
  cases wh <;> cases dh <;> rfl

/-- C1: the dispatch of `create_surface` and `get_required_instance_extensions`
agree on supportedness for every handle pair: the advertiser returns an
extension list exactly when the classifier matches a backend branch, and
each returns the `Unsupported` error exactly when the other does. -/
theorem claim_C1 (env : NativeEnv) (wh : RawWindowHandle)
    (dh : RawDisplayHandle) :
    ((∃ l, get_required_instance_extensions wh dh = Except.ok l) ↔
      ∃ t, classify wh dh = some t) ∧
    (classify wh dh = none →
      get_required_instance_extensions wh dh =
        Except.error CreateError.unsupported ∧
      create_surface env wh dh = (Outcome.err CreateError.unsupported, 0)) ∧
    ((create_surface env wh dh).1 = Outcome.err CreateError.unsupported ↔
      get_required_instance_extensions wh dh =
        Except.error CreateError.unsupported) := by
  refine ⟨?_, ?_, ?_⟩ <;> cases wh <;> cases dh <;>
    simp [classify, get_required_instance_extensions, create_surface,
      create_win32_surface_fst_ne_unsupported, create_wayland_surface_eq,
      create_xcb_surface_ne_unsupported, create_xlib_surface_eq,
      nativeResult_ne_unsupported]

/-- C1 witness: at a concrete unsupported pair both functions return the
`Unsupported` error. -/
theorem claim_C1_witness :
    get_required_instance_extensions (RawWindowHandle.other 0)
        (RawDisplayHandle.other 0) = Except.error CreateError.unsupported ∧
    create_surface unixEnv (RawWindowHandle.other 0) (RawDisplayHandle.other 0) =
      (Outcome.err CreateError.unsupported, 0) :=
  (claim_C1 unixEnv (RawWindowHandle.other 0) (RawDisplayHandle.other 0)).2.1 rfl

/-- C2: on every supported pair the advertiser returns exactly the two-element
list of the generic surface capability followed by the backend-specific one,
and every list it returns is non-empty of length two. -/
theorem claim_C2 (wh : RawWindowHandle) (dh : RawDisplayHandle)
    (t : BackendTag) (h : classify wh dh = some t) :
    get_required_instance_extensions wh dh =
      Except.ok ["VK_KHR_surface", backendExtensionName t] ∧
    ∀ l, get_required_instance_extensions wh dh = Except.ok l →
      l ≠ [] ∧ l.length = 2 := by
  cases wh <;> cases dh <;> simp [classify] at h <;> subst h <;>
    simp [get_required_instance_extensions, backendExtensionName]

/-- C2 witness: the Win32 pair yields the literal two-element list. -/
theorem claim_C2_witness :
    get_required_instance_extensions
        (RawWindowHandle.win32 { hwnd := 1, hinstance := none })
        (RawDisplayHandle.windows {}) =
      Except.ok ["VK_KHR_surface", "VK_KHR_win32_surface"] ∧
    ∀ l, get_required_instance_extensions
        (RawWindowHandle.win32 { hwnd := 1, hinstance := none })
        (RawDisplayHandle.windows {}) = Except.ok l →
      l ≠ [] ∧ l.length = 2 :=
  claim_C2 (RawWindowHandle.win32 { hwnd := 1, hinstance := none })
    (RawDisplayHandle.windows {}) BackendTag.win32 rfl

/-- C3: on a Win32 pair whose window handle carries no hinstance (on a
Windows build target, where the fallback is implemented) the surface is
created with the fallback module handle and the fallback runs exactly once;
when the window handle carries `some hv`, that value is used unchanged and
the fallback never runs. -/
theorem claim_C3 (env : NativeEnv) (w : Win32WindowHandle)
    (d : WindowsDisplayHandle) :
    (env.isWindows = true → w.hinstance = none →
      create_surface env (RawWindowHandle.win32 w) (RawDisplayHandle.windows d) =
        (nativeResult (env.win32Create
          { hinstance := env.moduleHandle, hwnd := w.hwnd }), 1)) ∧
    (∀ hv, w.hinstance = some hv →
      create_surface env (RawWindowHandle.win32 w) (RawDisplayHandle.windows d) =
        (nativeResult (env.win32Create
          { hinstance := hv, hwnd := w.hwnd }), 0)) := by
  constructor
  · intro hwin hnone
    simp [create_surface, hnone, create_win32_surface_none_win env w.hwnd hwin]
  · intro hv hsome
    simp [create_surface, hsome, create_win32_surface_some]

/-- C3 witness: concrete Windows environment, one call with a missing and
one with a present hinstance. -/
theorem claim_C3_witness :
    create_surface winEnv (RawWindowHandle.win32 { hwnd := 5, hinstance := none })
        (RawDisplayHandle.windows {}) = (Outcome.ok 42, 1) ∧
    create_surface winEnv (RawWindowHandle.win32 { hwnd := 5, hinstance := some 9 })
        (RawDisplayHandle.windows {}) = (Outcome.ok 42, 0) :=
  ⟨(claim_C3 winEnv { hwnd := 5, hinstance := none } {}).1 rfl rfl,
   (claim_C3 winEnv { hwnd := 5, hinstance := some 9 } {}).2 9 rfl⟩

/-- C4: on every Xlib pair the native call receives a create info holding
only the raw window identifier, with the display pointer field left at its
null default, and the result does not depend on the Xlib display handle's
contents. -/
theorem claim_C4 (env : NativeEnv) (x : XlibWindowHandle)
    (d d' : XlibDisplayHandle) :
    create_surface env (RawWindowHandle.xlib x) (RawDisplayHandle.xlib d) =
      (nativeResult (env.xlibCreate { dpy := 0, window := x.window }), 0) ∧
    create_surface env (RawWindowHandle.xlib x) (RawDisplayHandle.xlib d) =
      create_surface env (RawWindowHandle.xlib x) (RawDisplayHandle.xlib d') := by
  refine ⟨?_, rfl⟩
  simp [create_surface, create_xlib_surface_eq]

/-- C5: a window handle and a display handle from different backend
families never classify; both functions return the `Unsupported` error. -/
theorem claim_C5 (env : NativeEnv) (wh : RawWindowHandle)
    (dh : RawDisplayHandle) (t1 t2 : BackendTag)
    (h1 : windowFamily wh = some t1) (h2 : displayFamily dh = some t2)
    (hne : t1 ≠ t2) :
    classify wh dh = none ∧
    create_surface env wh dh = (Outcome.err CreateError.unsupported, 0) ∧
    get_required_instance_extensions wh dh =
      Except.error CreateError.unsupported := by
  cases wh <;> cases dh <;>
    simp_all [windowFamily, displayFamily, classify, create_surface,
      get_required_instance_extensions]

/-- C5 witness: an Xcb window handle with a Wayland display handle. -/
theorem claim_C5_witness :
    classify (RawWindowHandle.xcb { window := 1, visual_id := 0 })
      (RawDisplayHandle.wayland { display := 2 }) = none ∧
    create_surface unixEnv (RawWindowHandle.xcb { window := 1, visual_id := 0 })
      (RawDisplayHandle.wayland { display := 2 }) =
        (Outcome.err CreateError.unsupported, 0) ∧
    get_required_instance_extensions
      (RawWindowHandle.xcb { window := 1, visual_id := 0 })
      (RawDisplayHandle.wayland { display := 2 }) =
        Except.error CreateError.unsupported :=
  claim_C5 unixEnv (RawWindowHandle.xcb { window := 1, visual_id := 0 })
    (RawDisplayHandle.wayland { display := 2 }) BackendTag.xcb
    BackendTag.wayland rfl rfl (by decide)

/-- C6: on a non-Windows build target the Win32 instance-handle fallback is
a fatal unimplemented-path condition: `get_hinstance` is fatal, a Win32
pair with no hinstance makes the whole call fatal after exactly one
fallback invocation, and the fatal outcome is neither a success nor a
recoverable error value. -/
theorem claim_C6 (env : NativeEnv) (h : env.isWindows = false) :
    get_hinstance env = Outcome.fatal ∧
    (∀ w : Win32WindowHandle, w.hinstance = none →
      ∀ d, create_surface env (RawWindowHandle.win32 w)
        (RawDisplayHandle.windows d) = (Outcome.fatal, 1)) ∧
    (∀ s : Surface, (Outcome.fatal : Outcome Surface) ≠ Outcome.ok s) ∧
    (∀ e : CreateError, (Outcome.fatal : Outcome Surface) ≠ Outcome.err e) := by
  refine ⟨by simp [get_hinstance, h], ?_, by simp, by simp⟩
  intro w hnone d
  simp [create_surface, hnone, create_win32_surface_none_unix env w.hwnd h]

/-- C6 witness: the concrete non-Windows environment. -/
theorem claim_C6_witness :
    get_hinstance unixEnv = Outcome.fatal ∧
    create_surface unixEnv (RawWindowHandle.win32 { hwnd := 5, hinstance := none })
      (RawDisplayHandle.windows {}) = (Outcome.fatal, 1) :=
  ⟨(claim_C6 unixEnv rfl).1,
   (claim_C6 unixEnv rfl).2.1 { hwnd := 5, hinstance := none } rfl {}⟩

/-- C7: every backend routine forwards the native call's result unchanged:
each routine equals `nativeResult` of its oracle at the create info the
source builds, and `nativeResult` keeps a native error code intact and a
created surface intact. -/
theorem claim_C7 (env : NativeEnv) (hv hwnd : Int) (sp dp w k xw : Nat)
    (code : Int) (s : Surface) :
    create_win32_surface env (some hv) hwnd =
      (nativeResult (env.win32Create { hinstance := hv, hwnd := hwnd }), 0) ∧
    create_wayland_surface env sp dp =
      nativeResult (env.waylandCreate { surface := sp, display := dp }) ∧
    create_xcb_surface env w (some k) =
      nativeResult (env.xcbCreate { connection := k, window := w }) ∧
    create_xcb_surface env w none =
      nativeResult (env.xcbCreate { connection := 0, window := w }) ∧
    create_xlib_surface env xw =
      nativeResult (env.xlibCreate { dpy := 0, window := xw }) ∧
    nativeResult (Except.error code) = Outcome.err (CreateError.vkError code) ∧
    nativeResult (Except.ok s) = Outcome.ok s :=
  ⟨create_win32_surface_some env hv hwnd, create_wayland_surface_eq env sp dp,
   create_xcb_surface_some env w k, create_xcb_surface_none env w,
   create_xlib_surface_eq env xw, rfl, rfl⟩

/-- C8: the Wayland branch forwards the raw surface and display pointers
unmodified; the Xcb branch forwards the raw window id unmodified and the
connection pointer as-is, substituting null (`0`) exactly when absent. -/
theorem claim_C8 (env : NativeEnv) (ws dd xw vid k : Nat) (scr : Int) :
    create_surface env (RawWindowHandle.wayland { surface := ws })
        (RawDisplayHandle.wayland { display := dd }) =
      (nativeResult (env.waylandCreate { surface := ws, display := dd }), 0) ∧
    create_surface env (RawWindowHandle.xcb { window := xw, visual_id := vid })
        (RawDisplayHandle.xcb { connection := some k, screen := scr }) =
      (nativeResult (env.xcbCreate { connection := k, window := xw }), 0) ∧
    create_surface env (RawWindowHandle.xcb { window := xw, visual_id := vid })
        (RawDisplayHandle.xcb { connection := none, screen := scr }) =
      (nativeResult (env.xcbCreate { connection := 0, window := xw }), 0) := by
  refine ⟨?_, ?_, ?_⟩ <;>
    simp [create_surface, create_wayland_surface_eq, create_xcb_surface_some,
      create_xcb_surface_none]

/-- C9: the advertiser is deterministic and consults nothing but the two
variant tags: equal tags give identical ordered output, and the same pair
trivially gives the same output twice. -/
theorem claim_C9 (wh wh' : RawWindowHandle) (dh dh' : RawDisplayHandle)
    (h1 : wh.tag = wh'.tag) (h2 : dh.tag = dh'.tag) :
    get_required_instance_extensions wh dh =
      get_required_instance_extensions wh' dh' ∧
    get_required_instance_extensions wh dh =
      get_required_instance_extensions wh dh := by
  refine ⟨?_, rfl⟩
  rw [get_required_eq_tags, get_required_eq_tags, h1, h2]

/-- C9 witness: two Xlib pairs with equal tags but different payloads. -/
theorem claim_C9_witness :
    get_required_instance_extensions
        (RawWindowHandle.xlib { window := 1, visual_id := 2 })
        (RawDisplayHandle.xlib { display := some 5, screen := 0 }) =
      get_required_instance_extensions
        (RawWindowHandle.xlib { window := 3, visual_id := 4 })
        (RawDisplayHandle.xlib { display := none, screen := 9 }) ∧
    get_required_instance_extensions
        (RawWindowHandle.xlib { window := 1, visual_id := 2 })
        (RawDisplayHandle.xlib { display := some 5, screen := 0 }) =
      get_required_instance_extensions
        (RawWindowHandle.xlib { window := 1, visual_id := 2 })
        (RawDisplayHandle.xlib { display := some 5, screen := 0 }) :=
  claim_C9 (RawWindowHandle.xlib { window := 1, visual_id := 2 })
    (RawWindowHandle.xlib { window := 3, visual_id := 4 })
    (RawDisplayHandle.xlib { display := some 5, screen := 0 })
    (RawDisplayHandle.xlib { display := none, screen := 9 }) rfl rfl

/-- C10: classification, construction dispatch and capability list ignore
the payloads of the Windows and Xlib display handles: same variant tags
with different display-handle contents give the same branch and output. -/
theorem claim_C10 (env : NativeEnv) (w : Win32WindowHandle)
    (d d' : WindowsDisplayHandle) (x : XlibWindowHandle)
    (e e' : XlibDisplayHandle) :
    create_surface env (RawWindowHandle.win32 w) (RawDisplayHandle.windows d) =
      create_surface env (RawWindowHandle.win32 w) (RawDisplayHandle.windows d') ∧
    get_required_instance_extensions (RawWindowHandle.win32 w)
        (RawDisplayHandle.windows d) =
      get_required_instance_extensions (RawWindowHandle.win32 w)
        (RawDisplayHandle.windows d') ∧
    classify (RawWindowHandle.win32 w) (RawDisplayHandle.windows d) =
      classify (RawWindowHandle.win32 w) (RawDisplayHandle.windows d') ∧
    create_surface env (RawWindowHandle.xlib x) (RawDisplayHandle.xlib e) =
      create_surface env (RawWindowHandle.xlib x) (RawDisplayHandle.xlib e') ∧
    get_required_instance_extensions (RawWindowHandle.xlib x)
        (RawDisplayHandle.xlib e) =
      get_required_instance_extensions (RawWindowHandle.xlib x)
        (RawDisplayHandle.xlib e') ∧
    classify (RawWindowHandle.xlib x) (RawDisplayHandle.xlib e) =
      classify (RawWindowHandle.xlib x) (RawDisplayHandle.xlib e') :=
  ⟨rfl, rfl, rfl, rfl, rfl, rfl⟩

end Platform
